import Mathlib

/-!
Verification development for the jurisprudencia ingestion pipeline
(src/main.js and the SQL schema).  The JavaScript pipeline and the
database layer are shallowly embedded: browser navigation, the Supabase
client, and the OpenAI client are modelled as oracles supplied through a
`World` structure; machine words are `Nat` reduced modulo 2^32; each
function keeps its source name.
-/

namespace Juris

/-! ### SHA-256 (crypto.createHash in main.js, sha256 in the SQL trigger)

A byte is a `Nat` below 256; a word is a `Nat` below 2^32; all word
arithmetic is taken modulo 2^32.
-/

def w32 (n : Nat) : Nat := n % 4294967296

def rotr (n x : Nat) : Nat := w32 (Nat.lor (x >>> n) (x <<< (32 - n)))

def bsig0 (x : Nat) : Nat := Nat.xor (rotr 2 x) (Nat.xor (rotr 13 x) (rotr 22 x))

def bsig1 (x : Nat) : Nat := Nat.xor (rotr 6 x) (Nat.xor (rotr 11 x) (rotr 25 x))

def ssig0 (x : Nat) : Nat := Nat.xor (rotr 7 x) (Nat.xor (rotr 18 x) (x >>> 3))

def ssig1 (x : Nat) : Nat := Nat.xor (rotr 17 x) (Nat.xor (rotr 19 x) (x >>> 10))

def chf (x y z : Nat) : Nat := Nat.xor (Nat.land x y) (Nat.land (Nat.xor x 4294967295) z)

def majf (x y z : Nat) : Nat :=
  Nat.xor (Nat.land x y) (Nat.xor (Nat.land x z) (Nat.land y z))

/-- The eight SHA-256 working variables / chaining state words. -/
structure H8 where
  a : Nat
  b : Nat
  c : Nat
  d : Nat
  e : Nat
  f : Nat
  g : Nat
  h : Nat
deriving Repr, DecidableEq

def sha256init : H8 :=
  ⟨1779033703, 3144134277, 1013904242, 2773480762,
   1359893119, 2600822924, 528734635, 1541459225⟩

def K256 : List Nat :=
  [1116352408, 1899447441, 3049323471, 3921009573,
   961987163, 1508970993, 2453635748, 2870763221,
   3624381080, 310598401, 607225278, 1426881987,
   1925078388, 2162078206, 2614888103, 3248222580,
   3835390401, 4022224774, 264347078, 604807628,
   770255983, 1249150122, 1555081692, 1996064986,
   2554220882, 2821834349, 2952996808, 3210313671,
   3336571891, 3584528711, 113926993, 338241895,
   666307205, 773529912, 1294757372, 1396182291,
   1695183700, 1986661051, 2177026350, 2456956037,
   2730485921, 2820302411, 3259730800, 3345764771,
   3516065817, 3600352804, 4094571909, 275423344,
   430227734, 506948616, 659060556, 883997877,
   958139571, 1322822218, 1537002063, 1747873779,
   1955562222, 2024104815, 2227730452, 2361852424,
   2428436474, 2756734187, 3204031479, 3329325298]

/-- Big-endian 8-byte encoding of the bit length, for padding. -/
def beBytes8 (n : Nat) : List Nat :=
  (List.range 8).map (fun i => (n >>> (8 * (7 - i))) % 256)

def padMessage (msg : List Nat) : List Nat :=
  msg ++ [128] ++ List.replicate ((119 - msg.length % 64) % 64) 0
      ++ beBytes8 (8 * msg.length)

/-- Pack bytes into big-endian 32-bit words. -/
def toWords : List Nat → List Nat
  | a :: b :: c :: d :: rest => (a * 16777216 + b * 65536 + c * 256 + d) :: toWords rest
  | _ => []

/-- Split a word list into 16-word blocks (a padded message always splits
evenly; the last clause is unreachable on padded input). -/
def chunks16 : List Nat → List (List Nat)
  | [] => []
  | w0 :: w1 :: w2 :: w3 :: w4 :: w5 :: w6 :: w7 ::
    w8 :: w9 :: w10 :: w11 :: w12 :: w13 :: w14 :: w15 :: rest =>
      [w0, w1, w2, w3, w4, w5, w6, w7, w8, w9, w10, w11, w12, w13, w14, w15]
        :: chunks16 rest
  | rest => [rest]

/-- Extend a 16-word block to the 64-word message schedule (n more words). -/
def extendSchedule : Nat → List Nat → List Nat
  | 0, ws => ws
  | n + 1, ws =>
      let i := ws.length
      let w := w32 (ssig1 (ws.getD (i - 2) 0) + ws.getD (i - 7) 0
                    + ssig0 (ws.getD (i - 15) 0) + ws.getD (i - 16) 0)
      extendSchedule n (ws ++ [w])

def compressStep (st : H8) (kw : Nat × Nat) : H8 :=
  let t1 := w32 (st.h + bsig1 st.e + chf st.e st.f st.g + kw.1 + kw.2)
  let t2 := w32 (bsig0 st.a + majf st.a st.b st.c)
  ⟨w32 (t1 + t2), st.a, st.b, st.c, w32 (st.d + t1), st.e, st.f, st.g⟩

def compressBlock (st : H8) (block : List Nat) : H8 :=
  let ws := extendSchedule 48 block
  let fin := (K256.zip ws).foldl compressStep st
  ⟨w32 (st.a + fin.a), w32 (st.b + fin.b), w32 (st.c + fin.c), w32 (st.d + fin.d),
   w32 (st.e + fin.e), w32 (st.f + fin.f), w32 (st.g + fin.g), w32 (st.h + fin.h)⟩

def sha256state (msg : List Nat) : H8 :=
  (chunks16 (toWords (padMessage msg))).foldl compressBlock sha256init

def hexDigit (n : Nat) : Char :=
  if n < 10 then Char.ofNat (48 + n) else Char.ofNat (87 + n)

/-- Fixed-width lowercase hex rendering of one 32-bit word: always 8 chars. -/
def hexWord (w : Nat) : String :=
  String.mk ((List.range 8).map (fun i => hexDigit ((w >>> (28 - 4 * i)) % 16)))

def sha256hex (msg : List Nat) : String :=
  let s := sha256state msg
  hexWord s.a ++ hexWord s.b ++ hexWord s.c ++ hexWord s.d
    ++ hexWord s.e ++ hexWord s.f ++ hexWord s.g ++ hexWord s.h

/-- UTF-8 encoding of one character (Node Buffer.from(s, utf8) and
Postgres ::bytea both encode text as UTF-8). -/
def utf8Bytes (c : Char) : List Nat :=
  let n := c.toNat
  if n < 128 then [n]
  else if n < 2048 then [192 + n / 64, 128 + n % 64]
  else if n < 65536 then [224 + n / 4096, 128 + (n / 64) % 64, 128 + n % 64]
  else [240 + n / 262144, 128 + (n / 4096) % 64, 128 + (n / 64) % 64, 128 + n % 64]

def strBytes (s : String) : List Nat :=
  s.data.foldr (fun c acc => utf8Bytes c ++ acc) []

/-- crypto.createHash(sha256).update(s).digest(hex) from main.js. -/
def sha256hexStr (s : String) : String := sha256hex (strBytes s)

/-! ### processFecha (main.js lines 486-510)

moment(fechaTexto, formato, true) strict parsing, for the five formats
listed in the source.  In strict mode the DD and MM tokens match
exactly two digits (their strict regex is two digits, so a 1-digit day
or month fails), YYYY exactly 4 digits, YY exactly 2 (mapped to 2000+yy
for yy ≤ 68, else 1900+yy); the separators are required literally, the
whole string must be consumed, and calendar-invalid dates are rejected.
`toISOString` is modelled for a UTC environment (midnight UTC), as on
the Render deployment the code targets.
-/

inductive DateOrder
  | dmy
  | ymd
deriving Repr, DecidableEq

structure Formato where
  sep : Char
  ord : DateOrder
  yearDigits : Nat
deriving Repr, DecidableEq

/-- The format list of processFecha, in source order:
DD/MM/YYYY, DD-MM-YYYY, YYYY-MM-DD, DD/MM/YY, DD-MM-YY. -/
def formatos : List Formato :=
  [⟨'/', .dmy, 4⟩, ⟨'-', .dmy, 4⟩, ⟨'-', .ymd, 4⟩, ⟨'/', .dmy, 2⟩, ⟨'-', .dmy, 2⟩]

def splitChars (sep : Char) : List Char → List (List Char)
  | [] => [[]]
  | c :: cs =>
      let r := splitChars sep cs
      if c == sep then [] :: r
      else
        match r with
        | g :: gs => (c :: g) :: gs
        | [] => [[c]]

def charsToNat? (l : List Char) : Option Nat :=
  if l ≠ [] ∧ l.all (fun c => c.isDigit) then
    some (l.foldl (fun a c => 10 * a + (c.toNat - 48)) 0)
  else none

def isLeap (y : Nat) : Bool := y % 4 == 0 && (y % 100 != 0 || y % 400 == 0)

def daysInMonth (y m : Nat) : Nat :=
  if m == 2 then (if isLeap y then 29 else 28)
  else if m == 4 || m == 6 || m == 9 || m == 11 then 30
  else 31

structure Fecha where
  y : Nat
  m : Nat
  d : Nat
deriving Repr, DecidableEq

/-- moment's two-digit-year convention: 68 and below land in the 2000s. -/
def twoDigitYear (yy : Nat) : Nat := if yy ≤ 68 then 2000 + yy else 1900 + yy

def parseFormato (f : Formato) (s : String) : Option Fecha :=
  match splitChars f.sep s.data with
  | [p1, p2, p3] =>
      let parts : List Char × List Char × List Char :=
        match f.ord with
        | .dmy => (p1, p2, p3)
        | .ymd => (p3, p2, p1)
      match charsToNat? parts.1, charsToNat? parts.2.1, charsToNat? parts.2.2 with
      | some d, some m, some yRaw =>
          if parts.1.length = 2 ∧ parts.2.1.length = 2
              ∧ parts.2.2.length = f.yearDigits then
            let y := if f.yearDigits = 2 then twoDigitYear yRaw else yRaw
            if 1 ≤ m ∧ m ≤ 12 ∧ 1 ≤ d ∧ d ≤ daysInMonth y m then some ⟨y, m, d⟩
            else none
          else none
      | _, _, _ => none
  | _ => none

def tryFormats : List Formato → String → Option Fecha
  | [], _ => none
  | f :: fs, s =>
      match parseFormato f s with
      | some d => some d
      | none => tryFormats fs s

def pad2 (n : Nat) : String :=
  String.mk [Char.ofNat (48 + n / 10 % 10), Char.ofNat (48 + n % 10)]

def pad4 (n : Nat) : String :=
  String.mk [Char.ofNat (48 + n / 1000 % 10), Char.ofNat (48 + n / 100 % 10),
             Char.ofNat (48 + n / 10 % 10), Char.ofNat (48 + n % 10)]

/-- moment(...).toISOString() for a date parsed at midnight UTC. -/
def toISOString (f : Fecha) : String :=
  pad4 f.y ++ "-" ++ pad2 f.m ++ "-" ++ pad2 f.d ++ "T00:00:00.000Z"

/-- main.js processFecha: first matching format wins; on no match the
original text is returned unchanged (the try/catch makes it total). -/
def processFecha (fechaTexto : String) : String :=
  match tryFormats formatos fechaTexto with
  | some d => toISOString d
  | none => fechaTexto

/-! ### Data model and oracles

The browser, Supabase and OpenAI are external collaborators; their
responses are supplied by a `World` oracle so the control flow of
main.js can be embedded as pure functions.  A `List Event` trace records
the externally visible actions in order.
-/

/-- One search-result item as built by extractResultsFromPage. -/
structure Resultado where
  rol : String
  fecha : String
  tribunal : String
  caratulado : String
  enlace : String
  idx : Nat
deriving Repr, DecidableEq

/-- Raw field values of one result element on the page; `none` models a
selector that matched nothing (JS undefined). -/
structure RawElement where
  rol : Option String
  fecha : Option String
  tribunal : Option String
  caratulado : Option String
  enlace : Option String
deriving Repr, DecidableEq

/-- JS truthiness of an optional string: undefined and the empty string
are falsy. -/
def truthy : Option String → Bool
  | none => false
  | some s => s != ""

/-- JS `v || d` on an optional string. -/
def orDefault (v : Option String) (d : String) : String :=
  match v with
  | some s => if s == "" then d else s
  | none => d

/-- main.js extractResultsFromPage (lines 276-321): one item per element
having a truthy rol, fecha or tribunal; a falsy rol is replaced by the
synthetic key ROL-(Date.now())-(index). -/
def extractResultsFromPage (now : Nat) (elems : List RawElement) : List Resultado :=
  elems.enum.filterMap (fun p =>
    if truthy p.2.rol || truthy p.2.fecha || truthy p.2.tribunal then
      some { rol := orDefault p.2.rol ("ROL-" ++ toString now ++ "-" ++ toString p.1),
             fecha := orDefault p.2.fecha "",
             tribunal := orDefault p.2.tribunal "",
             caratulado := orDefault p.2.caratulado "",
             enlace := orDefault p.2.enlace "",
             idx := p.1 }
    else none)

/-- Field values scraped from a detail page by page.evaluate in
extractSentenceDetails; every field is always present (possibly empty). -/
structure Detalles where
  texto_completo : String
  considerandos : String
  resolucion : String
  fecha : String
  tribunal : String
deriving Repr, DecidableEq

/-- The sentencia object assembled by extractSentenceDetails. -/
structure Sentencia where
  rol : String
  fecha : String
  tribunal : String
  caratulado : String
  enlace : String
  texto_completo : String
  considerandos : String
  resolucion : String
  fecha_ingreso : String
  hash_contenido : String
  embeddings : Option (List Int)
deriving Repr, DecidableEq

/-- A row of the jurisprudencia_cs table (the columns the insert sets). -/
structure StoreRow where
  rol : String
  fecha : String
  tribunal : String
  caratulado : String
  texto_completo : String
  considerandos : String
  resolucion : String
  enlace : String
  hash_contenido : String
  fecha_ingreso : String
  embeddings : Option (List Int)
deriving Repr, DecidableEq

/-- The jurisprudencia_cs table contents. -/
abbrev Store := List StoreRow

inductive InsertError
  | uniqueViolation
  | otherError
deriving Repr, DecidableEq

deriving instance DecidableEq for Except

/-- Oracle for the external collaborators.  `dedupQueryOk rol = false`
means the existence select for that rol errors or throws;
`fetchDetail url = none` means detail navigation fails (caught);
`embedResult texto = none` means the OpenAI call fails (caught);
`insertFault rol = true` injects a store failure other than the
uniqueness constraint; `nowIso` is new Date().toISOString(). -/
structure World where
  dedupQueryOk : String → Bool
  fetchDetail : String → Option Detalles
  embedResult : String → Option (List Int)
  insertFault : String → Bool
  nowIso : String

structure Config where
  hasSupabase : Bool
  enableEmbeddings : Bool
  hasOpenai : Bool
deriving Repr, DecidableEq

/-- Run statistics (this.stats in main.js). -/
structure Stats where
  total_procesadas : Nat
  exitosas : Nat
  duplicadas : Nat
  errores : Nat
deriving Repr, DecidableEq

/-- Externally visible actions, in execution order. -/
inductive Event
  | dedupCheck (rol : String) (hit : Bool)
  | detailFetch (url : String)
  | embedCall (texto : String)
  | insertAttempt (rol : String)
deriving Repr, DecidableEq

/-! ### Pipeline stages (main.js, in source order) -/

/-- main.js checkDuplicateByRol (lines 515-533): select rol eq rol
limit 1; a query error or a thrown exception yields false. -/
def checkDuplicateByRol (w : World) (store : Store) (rol : String) : Bool :=
  if w.dedupQueryOk rol then store.any (fun r => r.rol == rol) else false

/-- The part of main.js extractSentenceDetails (lines 398-475) before
hashing: build the base sentencia from the search-result item; when
enlace is nonempty, navigate and (on success) overwrite the five scraped
fields, a navigation failure being caught; then normalize fecha when it
is nonempty. -/
def extractSentenceDetailsPre (w : World) (resultado : Resultado) :
    Sentencia × List Event :=
  let base : Sentencia :=
    { rol := resultado.rol, fecha := resultado.fecha, tribunal := resultado.tribunal,
      caratulado := resultado.caratulado, enlace := resultado.enlace,
      texto_completo := "", considerandos := "", resolucion := "",
      fecha_ingreso := w.nowIso, hash_contenido := "", embeddings := none }
  let fetched : Sentencia × List Event :=
    if resultado.enlace != "" then
      match w.fetchDetail resultado.enlace with
      | some d =>
          ({ base with texto_completo := d.texto_completo,
                       considerandos := d.considerandos,
                       resolucion := d.resolucion,
                       fecha := d.fecha, tribunal := d.tribunal },
           [Event.detailFetch resultado.enlace])
      | none => (base, [Event.detailFetch resultado.enlace])
    else (base, [])
  let s1 := fetched.1
  let s2 := if s1.fecha != "" then { s1 with fecha := processFecha s1.fecha } else s1
  (s2, fetched.2)

/-- main.js extractSentenceDetails (lines 398-481): the pre stage, then
hash_contenido is set to the sha256 hex digest of the concatenation
rol ++ texto_completo ++ considerandos (line 477-478). -/
def extractSentenceDetails (w : World) (resultado : Resultado) :
    Sentencia × List Event :=
  let p := extractSentenceDetailsPre w resultado
  ({ p.1 with hash_contenido :=
       sha256hexStr (p.1.rol ++ p.1.texto_completo ++ p.1.considerandos) },
   p.2)

def isWS (c : Char) : Bool := c == ' ' || c == '\t' || c == '\n' || c == '\r'

/-- JS String.trim (ASCII whitespace suffices for this pipeline). -/
def jsTrim (s : String) : String :=
  String.mk (((s.data.dropWhile isWS).reverse.dropWhile isWS).reverse)

/-- The single text the enricher embeds: caratulado, considerandos and
resolucion joined by spaces, trimmed. -/
def textoParaEmbedding (s : Sentencia) : String :=
  jsTrim (s.caratulado ++ " " ++ s.considerandos ++ " " ++ s.resolucion)

/-- main.js generateEmbeddings (lines 538-559): one OpenAI call on the
combined text; empty text makes no call; a provider failure is caught
and leaves embeddings untouched. -/
def generateEmbeddings (w : World) (s : Sentencia) : Sentencia × List Event :=
  let texto := textoParaEmbedding s
  if texto == "" then (s, [])
  else
    match w.embedResult texto with
    | some v => ({ s with embeddings := some v }, [Event.embedCall texto])
    | none => (s, [Event.embedCall texto])

/-- The BEFORE INSERT trigger of the schema (part_000 lines 156-167):
hash_contenido is overwritten with the sha256 of texto_completo alone. -/
def actualizar_hash_contenido (row : StoreRow) : StoreRow :=
  { row with hash_contenido := sha256hexStr row.texto_completo }

/-- The columns saveSentenceToSupabase inserts. -/
def rowOfSentencia (s : Sentencia) : StoreRow :=
  { rol := s.rol, fecha := s.fecha, tribunal := s.tribunal,
    caratulado := s.caratulado, texto_completo := s.texto_completo,
    considerandos := s.considerandos, resolucion := s.resolucion,
    enlace := s.enlace, hash_contenido := s.hash_contenido,
    fecha_ingreso := s.fecha_ingreso, embeddings := s.embeddings }

/-- The store insert: an injected fault or the UNIQUE constraint on rol
makes it error; otherwise the trigger fires and the row is appended. -/
def supabaseInsert (w : World) (store : Store) (row : StoreRow) :
    Except InsertError Store :=
  if w.insertFault row.rol then Except.error InsertError.otherError
  else if store.any (fun r => r.rol == row.rol) then
    Except.error InsertError.uniqueViolation
  else Except.ok (store ++ [actualizar_hash_contenido row])

/-- main.js saveSentenceToSupabase (lines 564-593): insert the row; any
insert error is logged and rethrown (modelled by Except.error). -/
def saveSentenceToSupabase (w : World) (store : Store) (s : Sentencia) :
    Except InsertError Store :=
  supabaseInsert w store (rowOfSentencia s)

/-- The conditional enrichment step of processSingleResult (lines
380-383): embeddings are generated only when they are enabled and the
OpenAI client was initialized. -/
def embStage (cfg : Config) (w : World) (s : Sentencia) : Sentencia × List Event :=
  if cfg.enableEmbeddings && cfg.hasOpenai then generateEmbeddings w s else (s, [])

/-- main.js processSingleResult (lines 364-393): dedup check first (when
Supabase is configured); on a hit count a duplicate and return; else
extract details, optionally embed, then save (when Supabase is
configured), counting a success; a save error propagates. -/
def processSingleResult (cfg : Config) (w : World) (store : Store)
    (stats : Stats) (resultado : Resultado) :
    Except InsertError Unit × Store × Stats × List Event :=
  if cfg.hasSupabase && checkDuplicateByRol w store resultado.rol then
    (Except.ok (), store, { stats with duplicadas := stats.duplicadas + 1 },
     [Event.dedupCheck resultado.rol true])
  else if cfg.hasSupabase then
    match saveSentenceToSupabase w store
        (embStage cfg w (extractSentenceDetails w resultado).1).1 with
    | Except.error e =>
        (Except.error e, store, stats,
         [Event.dedupCheck resultado.rol (checkDuplicateByRol w store resultado.rol)]
           ++ (extractSentenceDetails w resultado).2
           ++ (embStage cfg w (extractSentenceDetails w resultado).1).2
           ++ [Event.insertAttempt
                 (embStage cfg w (extractSentenceDetails w resultado).1).1.rol])
    | Except.ok store2 =>
        (Except.ok (), store2, { stats with exitosas := stats.exitosas + 1 },
         [Event.dedupCheck resultado.rol (checkDuplicateByRol w store resultado.rol)]
           ++ (extractSentenceDetails w resultado).2
           ++ (embStage cfg w (extractSentenceDetails w resultado).1).2
           ++ [Event.insertAttempt
                 (embStage cfg w (extractSentenceDetails w resultado).1).1.rol])
  else
    (Except.ok (), store, stats,
     (extractSentenceDetails w resultado).2
       ++ (embStage cfg w (extractSentenceDetails w resultado).1).2)

/-- main.js processResults (lines 344-359): sequential loop; per record
total_procesadas is incremented, then processSingleResult runs inside
try/catch; a caught error increments errores and the loop continues. -/
def processResults (cfg : Config) (w : World) :
    Store × Stats → List Resultado → Store × Stats
  | st, [] => st
  | (store, stats), r :: rest =>
      let stats1 := { stats with total_procesadas := stats.total_procesadas + 1 }
      match processSingleResult cfg w store stats1 r with
      | (Except.error _, store2, stats2, _) =>
          processResults cfg w
            (store2, { stats2 with errores := stats2.errores + 1 }) rest
      | (Except.ok _, store2, stats2, _) =>
          processResults cfg w (store2, stats2) rest

/-! ### Concrete fixtures used to evaluate the model on closed inputs -/

def stats0 : Stats := ⟨0, 0, 0, 0⟩

/-- A configuration with Supabase and without embeddings. -/
def cfgS : Config := ⟨true, false, false⟩

/-- A configuration with Supabase, OpenAI and embeddings enabled. -/
def cfgSE : Config := ⟨true, true, true⟩

/-- A store row for rol 123-2024. -/
def row123 : StoreRow :=
  { rol := "123-2024", fecha := "", tribunal := "", caratulado := "",
    texto_completo := "", considerandos := "", resolucion := "", enlace := "",
    hash_contenido := "", fecha_ingreso := "", embeddings := none }

def store123 : Store := [row123]

/-- A search-result item with the same rol as row123. -/
def res123 : Resultado :=
  { rol := "123-2024", fecha := "", tribunal := "", caratulado := "",
    enlace := "", idx := 0 }

/-- World whose dedup select always succeeds and whose store never
faults; detail pages and the embedding provider are unavailable. -/
def wOk : World :=
  { dedupQueryOk := fun _ => true, fetchDetail := fun _ => none,
    embedResult := fun _ => none, insertFault := fun _ => false, nowIso := "" }

/-- World whose dedup select always errors (checkDuplicateByRol's catch
path); the store itself works. -/
def wQfail : World :=
  { dedupQueryOk := fun _ => false, fetchDetail := fun _ => none,
    embedResult := fun _ => none, insertFault := fun _ => false, nowIso := "" }

/-- World whose store insert always fails with a non-uniqueness error. -/
def wIfail : World :=
  { dedupQueryOk := fun _ => true, fetchDetail := fun _ => none,
    embedResult := fun _ => none, insertFault := fun _ => true, nowIso := "" }

/-- World for the hash claim: the detail page for url u has body text T
and considerandos C. -/
def wDet : World :=
  { dedupQueryOk := fun _ => true,
    fetchDetail := fun _ => some ⟨"T", "C", "", "", ""⟩,
    embedResult := fun _ => none, insertFault := fun _ => false, nowIso := "" }

/-- A search-result item pointing at detail url u. -/
def resDet : Resultado :=
  { rol := "R1", fecha := "", tribunal := "", caratulado := "", enlace := "u",
    idx := 0 }

/-- The sentencia the pipeline builds for resDet under wDet. -/
def sentDet : Sentencia := (extractSentenceDetails wDet resDet).1

/-- The row the store retains after inserting sentDet (trigger applied). -/
def rowDet : StoreRow := actualizar_hash_contenido (rowOfSentencia sentDet)

/-- A sentencia whose texto_completo is empty (as produced when no
detail link exists). -/
def sentEmpty : Sentencia :=
  { rol := "R1", fecha := "", tribunal := "", caratulado := "", enlace := "",
    texto_completo := "", considerandos := "", resolucion := "",
    fecha_ingreso := "", hash_contenido := "", embeddings := none }

/-- A result item with no detail link: its texto_completo stays empty. -/
def resNoLink : Resultado :=
  { rol := "R1", fecha := "", tribunal := "", caratulado := "", enlace := "",
    idx := 0 }

/-- A raw page element with no rol but a fecha. -/
def elemNoRol : RawElement := ⟨none, some "01/01/2024", none, none, none⟩

/-- A raw page element where rol, fecha and tribunal are all absent. -/
def elemBlank : RawElement := ⟨none, none, none, none, some "x"⟩

/-- A sentencia with all three embedding-view texts nonempty. -/
def sentViews : Sentencia :=
  { rol := "R9", fecha := "", tribunal := "", caratulado := "Titulo",
    enlace := "", texto_completo := "", considerandos := "Consid",
    resolucion := "Res", fecha_ingreso := "", hash_contenido := "",
    embeddings := none }

/-- Provider that succeeds on the content text alone but fails on the
combined text that generateEmbeddings actually sends. -/
def wViews : World :=
  { dedupQueryOk := fun _ => true, fetchDetail := fun _ => none,
    embedResult := fun t => if t == "Consid" then some [7] else none,
    insertFault := fun _ => false, nowIso := "" }

/-- A result item whose caratulado is nonempty, so the combined
embedding text is nonempty and the (failing) provider is called. -/
def resViews : Resultado :=
  { rol := "R9", fecha := "", tribunal := "", caratulado := "Titulo",
    enlace := "", idx := 0 }

/-! ### Helper lemmas -/

theorem hexWord_length (w : Nat) : (hexWord w).length = 8 := by
  have h : ∀ l : List Char, (String.mk l).length = l.length := fun _ => rfl
  simp [hexWord, h]

theorem sha256hexStr_length (s : String) : (sha256hexStr s).length = 64 := by
  simp [sha256hexStr, sha256hex, String.length_append, hexWord_length]

theorem any_of_filter_length_one {p : StoreRow → Bool} {l : Store}
    (h : (l.filter p).length = 1) : l.any p = true := by
  have hne : l.filter p ≠ [] := by
    intro he
    rw [he] at h
    simp at h
  obtain ⟨x, hx⟩ := List.exists_mem_of_ne_nil _ hne
  have hm := List.mem_filter.mp hx
  exact List.any_eq_true.mpr ⟨x, hm.1, hm.2⟩

theorem extractSentenceDetailsPre_rol (w : World) (r : Resultado) :
    (extractSentenceDetailsPre w r).1.rol = r.rol := by
  simp only [extractSentenceDetailsPre]
  split <;> first
    | rfl
    | (split <;> first | rfl | (split <;> rfl))

theorem extractSentenceDetails_rol (w : World) (r : Resultado) :
    (extractSentenceDetails w r).1.rol = r.rol :=
  extractSentenceDetailsPre_rol w r

theorem generateEmbeddings_rol (w : World) (s : Sentencia) :
    (generateEmbeddings w s).1.rol = s.rol := by
  simp only [generateEmbeddings]
  split
  · rfl
  · split <;> rfl

theorem getLast?_cons_append_singleton {α : Type} (x a : α) (l1 l2 : List α) :
    (x :: (l1 ++ (l2 ++ [a]))).getLast? = some a := by
  rw [← List.append_assoc, ← List.cons_append, List.getLast?_concat]

theorem embStage_rol (cfg : Config) (w : World) (s : Sentencia) :
    (embStage cfg w s).1.rol = s.rol := by
  unfold embStage
  split
  · exact generateEmbeddings_rol w s
  · rfl

theorem orDefault_of_falsy (v : Option String) (d : String)
    (h : truthy v = false) : orDefault v d = d := by
  cases v with
  | none => rfl
  | some s =>
      have hs : s = "" := by
        by_cases he : s = ""
        · exact he
        · simp [truthy, he] at h
      subst hs
      rfl

theorem processSingleResult_error_inv (cfg : Config) (w : World) (store : Store)
    (stats : Stats) (r : Resultado) (e : InsertError)
    (h : (processSingleResult cfg w store stats r).1 = Except.error e) :
    ∃ tr, processSingleResult cfg w store stats r
        = (Except.error e, store, stats, tr) := by
  by_cases hdup : (cfg.hasSupabase && checkDuplicateByRol w store r.rol) = true
  · rw [processSingleResult, if_pos hdup] at h
    simp at h
  · by_cases hsup : cfg.hasSupabase = true
    · rw [processSingleResult, if_neg hdup, if_pos hsup] at h ⊢
      cases hs : saveSentenceToSupabase w store
          (embStage cfg w (extractSentenceDetails w r).1).1 with
      | error e2 =>
          simp only [hs] at h ⊢
          cases h
          exact ⟨_, rfl⟩
      | ok s2 => simp [hs] at h
    · rw [processSingleResult, if_neg hdup, if_neg hsup] at h
      simp at h

/-! ### Claims -/

/-- C1: for a record whose naturalKey already has exactly one stored
record (Supabase configured, the existence select succeeding),
processing it again returns without error, increments only the
duplicate counter, leaves the store unchanged — so it still retains
exactly one record with that key — and any insert of a row with that
key is rejected by the store, never overwriting the existing record. -/
theorem C1_resubmission_is_duplicate (cfg : Config) (w : World) (store : Store)
    (stats : Stats) (r : Resultado)
    (hsup : cfg.hasSupabase = true)
    (hq : w.dedupQueryOk r.rol = true)
    (hone : (store.filter (fun x => x.rol == r.rol)).length = 1) :
    processSingleResult cfg w store stats r
      = (Except.ok (), store, { stats with duplicadas := stats.duplicadas + 1 },
         [Event.dedupCheck r.rol true])
    ∧ (((processSingleResult cfg w store stats r).2.1.filter
          (fun x => x.rol == r.rol)).length = 1)
    ∧ (∀ row : StoreRow, row.rol = r.rol → ∀ store2 : Store,
         supabaseInsert w store row ≠ Except.ok store2) := by
  have hany : store.any (fun x => x.rol == r.rol) = true :=
    any_of_filter_length_one hone
  have hchk : checkDuplicateByRol w store r.rol = true := by
    simp [checkDuplicateByRol, hq, hany]
  have h1 : processSingleResult cfg w store stats r
      = (Except.ok (), store, { stats with duplicadas := stats.duplicadas + 1 },
         [Event.dedupCheck r.rol true]) := by
    simp [processSingleResult, hsup, hchk]
  refine ⟨h1, ?_, ?_⟩
  · rw [h1]
    exact hone
  · intro row hrow store2 hok
    by_cases hf : w.insertFault row.rol
    · simp [supabaseInsert, hf] at hok
    · have hany2 : store.any (fun x => x.rol == row.rol) = true := by
        rw [hrow]
        exact hany
      simp [supabaseInsert, hf, hany2] at hok

/-- C1 witness: resubmitting rol 123-2024 against a store holding it. -/
theorem C1_witness :
    processSingleResult cfgS wOk store123 stats0 res123
      = (Except.ok (), store123,
         { stats0 with duplicadas := stats0.duplicadas + 1 },
         [Event.dedupCheck res123.rol true]) :=
  (C1_resubmission_is_duplicate cfgS wOk store123 stats0 res123 rfl rfl
    (by decide)).1

/-- C2: with Supabase configured and the existence select succeeding,
the dedup check on the naturalKey is the first external action of
processing a record — it precedes any detail fetch and any embedding
call — and on a hit every downstream stage is skipped: the trace is the
lone check event (no detail fetch, no embedding-provider call, no
insert), the duplicate counter is incremented, the store is untouched
and the record finishes without error. -/
theorem C2_dedup_gate_before_enrichment (cfg : Config) (w : World)
    (store : Store) (stats : Stats) (r : Resultado)
    (hsup : cfg.hasSupabase = true)
    (hq : w.dedupQueryOk r.rol = true) :
    (processSingleResult cfg w store stats r).2.2.2.head?
      = some (Event.dedupCheck r.rol (store.any (fun x => x.rol == r.rol)))
    ∧ (store.any (fun x => x.rol == r.rol) = true →
        processSingleResult cfg w store stats r
          = (Except.ok (), store,
             { stats with duplicadas := stats.duplicadas + 1 },
             [Event.dedupCheck r.rol true])) := by
  have hchk : checkDuplicateByRol w store r.rol
      = store.any (fun x => x.rol == r.rol) := by
    simp [checkDuplicateByRol, hq]
  constructor
  · cases hany : store.any (fun x => x.rol == r.rol) with
    | true =>
        have hc : checkDuplicateByRol w store r.rol = true := by rw [hchk, hany]
        simp [processSingleResult, hsup, hc]
    | false =>
        have hc : checkDuplicateByRol w store r.rol = false := by rw [hchk, hany]
        cases hs : saveSentenceToSupabase w store
            (embStage cfg w (extractSentenceDetails w r).1).1 with
        | error e2 => simp [processSingleResult, hsup, hc, hs]
        | ok s2 => simp [processSingleResult, hsup, hc, hs]
  · intro hany
    have hc : checkDuplicateByRol w store r.rol = true := by rw [hchk, hany]
    simp [processSingleResult, hsup, hc]

/-- C2 witness: for the stored rol 123-2024 the trace opens with the
(positive) dedup check. -/
theorem C2_witness :
    (processSingleResult cfgS wOk store123 stats0 res123).2.2.2.head?
      = some (Event.dedupCheck res123.rol
          (store123.any (fun x => x.rol == res123.rol))) :=
  (C2_dedup_gate_before_enrichment cfgS wOk store123 stats0 res123 rfl rfl).1

/-- C10: when the existence select itself fails, checkDuplicateByRol
returns false without raising, the record is not counted as a
duplicate, the trace still opens with the (negative) check and ends
with the insert attempt: processing proceeded to enrichment and the
insert. -/
theorem C10_failed_dedup_query_means_not_stored (cfg : Config) (w : World)
    (store : Store) (stats : Stats) (r : Resultado)
    (hsup : cfg.hasSupabase = true)
    (hq : w.dedupQueryOk r.rol = false) :
    checkDuplicateByRol w store r.rol = false
    ∧ (processSingleResult cfg w store stats r).2.2.1.duplicadas
        = stats.duplicadas
    ∧ (processSingleResult cfg w store stats r).2.2.2.head?
        = some (Event.dedupCheck r.rol false)
    ∧ (processSingleResult cfg w store stats r).2.2.2.getLast?
        = some (Event.insertAttempt r.rol) := by
  have hchk : checkDuplicateByRol w store r.rol = false := by
    simp [checkDuplicateByRol, hq]
  have hrole : (embStage cfg w (extractSentenceDetails w r).1).1.rol = r.rol := by
    rw [embStage_rol, extractSentenceDetails_rol]
  refine ⟨hchk, ?_, ?_, ?_⟩ <;>
    (cases hs : saveSentenceToSupabase w store
        (embStage cfg w (extractSentenceDetails w r).1).1 <;>
      simp [processSingleResult, hsup, hchk, hs, hrole,
            getLast?_cons_append_singleton])

/-- C10 witness: rol 123-2024 is stored but the select fails — the run
still reaches the insert attempt for it. -/
theorem C10_witness :
    Juris.checkDuplicateByRol wQfail store123 res123.rol = false
    ∧ (processSingleResult cfgS wQfail store123 stats0 res123).2.2.1.duplicadas
        = stats0.duplicadas :=
  ⟨(C10_failed_dedup_query_means_not_stored cfgS wQfail store123 stats0 res123
      rfl rfl).1,
   (C10_failed_dedup_query_means_not_stored cfgS wQfail store123 stats0 res123
      rfl rfl).2.1⟩

/-- C3 counterexample: rol 123-2024 is already stored and the dedup
select fails, so the insert hits the UNIQUE constraint; the run then
counts the record under errores (1), not under duplicadas (0) — the
claim says the duplicate counter, not the error counter, is
incremented. -/
theorem C3_counterexample :
    (processSingleResult cfgS wQfail store123
        { stats0 with total_procesadas := stats0.total_procesadas + 1 }
        res123).1
      = Except.error InsertError.uniqueViolation
    ∧ processResults cfgS wQfail (store123, stats0) [res123]
        = (store123, ⟨1, 0, 0, 1⟩) := by
  constructor
  · decide
  · decide

/-- C3 amended: a uniqueness-constraint violation at insert time is
thrown by saveSentenceToSupabase and caught by processResults, which
increments the error counter — not the duplicate counter — leaves the
store unchanged, and continues with the remaining records; the
violation is not fatal to the run. -/
theorem C3_unique_violation_counted_as_error (cfg : Config) (w : World)
    (store : Store) (stats : Stats) (r : Resultado) (rest : List Resultado)
    (hsup : cfg.hasSupabase = true)
    (hq : w.dedupQueryOk r.rol = false)
    (hf : w.insertFault r.rol = false)
    (hany : store.any (fun x => x.rol == r.rol) = true) :
    (processSingleResult cfg w store
        { stats with total_procesadas := stats.total_procesadas + 1 } r).1
      = Except.error InsertError.uniqueViolation
    ∧ processResults cfg w (store, stats) (r :: rest)
      = processResults cfg w
          (store, { stats with total_procesadas := stats.total_procesadas + 1,
                               errores := stats.errores + 1 }) rest := by
  have hchk : checkDuplicateByRol w store r.rol = false := by
    simp [checkDuplicateByRol, hq]
  have hrole : (embStage cfg w (extractSentenceDetails w r).1).1.rol = r.rol := by
    rw [embStage_rol, extractSentenceDetails_rol]
  have hsave : saveSentenceToSupabase w store
      (embStage cfg w (extractSentenceDetails w r).1).1
      = Except.error InsertError.uniqueViolation := by
    simp [saveSentenceToSupabase, supabaseInsert, rowOfSentencia, hrole, hf, hany]
  have h1 : (processSingleResult cfg w store
      { stats with total_procesadas := stats.total_procesadas + 1 } r).1
      = Except.error InsertError.uniqueViolation := by
    simp [processSingleResult, hsup, hchk, hsave]
  refine ⟨h1, ?_⟩
  obtain ⟨tr, htr⟩ := processSingleResult_error_inv cfg w store
    { stats with total_procesadas := stats.total_procesadas + 1 } r
    InsertError.uniqueViolation h1
  simp [processResults, htr]

/-- C3 witness for the amended statement, at the concrete inputs of the
counterexample. -/
theorem C3_witness :
    processResults cfgS wQfail (store123, stats0) [res123]
      = processResults cfgS wQfail
          (store123,
           { stats0 with total_procesadas := stats0.total_procesadas + 1,
                         errores := stats0.errores + 1 }) [] :=
  (C3_unique_violation_counted_as_error cfgS wQfail store123 stats0 res123 []
    rfl rfl rfl (by decide)).2

/-- C4: a failure while processing one record is caught by
processResults: it increments the error counter for that record only
(the store and the other counters are exactly those before the record,
plus its total-processed tick), and processing continues with every
subsequent record in the sequence — the per-record error does not
propagate past that record. -/
theorem C4_record_error_is_isolated (cfg : Config) (w : World) (store : Store)
    (stats : Stats) (r : Resultado) (rest : List Resultado) (e : InsertError)
    (h : (processSingleResult cfg w store
            { stats with total_procesadas := stats.total_procesadas + 1 } r).1
          = Except.error e) :
    processResults cfg w (store, stats) (r :: rest)
      = processResults cfg w
          (store, { stats with total_procesadas := stats.total_procesadas + 1,
                               errores := stats.errores + 1 }) rest := by
  obtain ⟨tr, htr⟩ := processSingleResult_error_inv cfg w store
    { stats with total_procesadas := stats.total_procesadas + 1 } r e h
  simp [processResults, htr]

/-- C4 witness: a store fault on the single record leaves a run over it
equal to the empty continuation with errores incremented once. -/
theorem C4_witness :
    processResults cfgS wIfail ([], stats0) [res123]
      = processResults cfgS wIfail
          ([], { stats0 with total_procesadas := stats0.total_procesadas + 1,
                             errores := stats0.errores + 1 }) [] :=
  C4_record_error_is_isolated cfgS wIfail [] stats0 res123 []
    InsertError.otherError (by decide)

set_option maxRecDepth 8000 in
/-- C5 counterexample: the pipeline record for rol R1 (fullText T,
reasoning C) carries the digest of the concatenation R1TC, but the row
the store retains after insert carries the trigger-recomputed digest of
T alone — the stored value is not the digest of the concatenation, so
the claimed consistency of the retained value fails. -/
theorem C5_counterexample :
    saveSentenceToSupabase wDet [] sentDet = Except.ok [rowDet]
    ∧ sentDet.hash_contenido = sha256hexStr "R1TC"
    ∧ rowDet.hash_contenido ≠ sentDet.hash_contenido := by
  refine ⟨by decide, by decide, by decide⟩

/-- C5 amended: contentHash as computed by the pipeline is the
deterministic 256-bit (64 hex char) sha256 digest of
naturalKey ++ fullText ++ reasoningText in that fixed order, the record
handed to commit still carries it (enrichment mutates no text field and
not the hash), but the store does NOT retain it: the insert trigger
overwrites hash_contenido with the digest of fullText alone. -/
theorem C5_content_hash_and_trigger (w : World) (r : Resultado) :
    (extractSentenceDetails w r).1.hash_contenido
      = sha256hexStr ((extractSentenceDetails w r).1.rol
          ++ (extractSentenceDetails w r).1.texto_completo
          ++ (extractSentenceDetails w r).1.considerandos)
    ∧ ((extractSentenceDetails w r).1.hash_contenido).length = 64
    ∧ (∀ w2 s, (generateEmbeddings w2 s).1.hash_contenido = s.hash_contenido
         ∧ (generateEmbeddings w2 s).1.rol = s.rol
         ∧ (generateEmbeddings w2 s).1.texto_completo = s.texto_completo
         ∧ (generateEmbeddings w2 s).1.considerandos = s.considerandos)
    ∧ (∀ wi store row store2,
         supabaseInsert wi store row = Except.ok store2 →
         store2 = store
           ++ [{ row with hash_contenido := sha256hexStr row.texto_completo }]) := by
  refine ⟨rfl, sha256hexStr_length _, ?_, ?_⟩
  · intro w2 s
    simp only [generateEmbeddings]
    split
    · exact ⟨rfl, rfl, rfl, rfl⟩
    · split <;> exact ⟨rfl, rfl, rfl, rfl⟩
  · intro wi store row store2 hok
    unfold supabaseInsert at hok
    split at hok
    · simp at hok
    · split at hok
      · simp at hok
      · cases hok
        rfl

/-- C5 witness: the commit-time consistency at concrete inputs, and the
trigger characterization applied to a concrete successful insert. -/
theorem C5_witness :
    (extractSentenceDetails wDet resDet).1.hash_contenido
      = sha256hexStr ((extractSentenceDetails wDet resDet).1.rol
          ++ (extractSentenceDetails wDet resDet).1.texto_completo
          ++ (extractSentenceDetails wDet resDet).1.considerandos)
    ∧ ([] : Store) ++ [actualizar_hash_contenido row123]
        = ([] : Store)
            ++ [{ row123 with
                  hash_contenido := sha256hexStr row123.texto_completo }] :=
  ⟨(C5_content_hash_and_trigger wDet resDet).1,
   (C5_content_hash_and_trigger wDet resDet).2.2.2 wOk [] row123
     ([] ++ [actualizar_hash_contenido row123]) rfl⟩

/-- C6 counterexample: a record with empty fullText (no detail link, so
texto_completo stays empty) is committed without any error and the
store then contains a row with empty texto_completo — no
ValidationError exists and the store write is not prevented. -/
theorem C6_counterexample :
    (processSingleResult cfgS wOk [] stats0 resNoLink).1 = Except.ok ()
    ∧ (processSingleResult cfgS wOk [] stats0 resNoLink).2.1.map
        (fun x => x.texto_completo) = [""] := by
  refine ⟨by decide, by decide⟩

/-- C6 amended: commit performs no validation of fullText at all: for
any record whose naturalKey is not yet stored (and absent store
faults), saveSentenceToSupabase inserts it — in particular a record
with empty fullText — and the stored row keeps that empty text. -/
theorem C6_commit_accepts_empty_fulltext (w : World) (store : Store)
    (s : Sentencia)
    (hf : w.insertFault s.rol = false)
    (hnew : store.any (fun x => x.rol == s.rol) = false) :
    saveSentenceToSupabase w store s
      = Except.ok (store ++ [actualizar_hash_contenido (rowOfSentencia s)])
    ∧ (actualizar_hash_contenido (rowOfSentencia s)).texto_completo
        = s.texto_completo := by
  constructor
  · simp [saveSentenceToSupabase, supabaseInsert, rowOfSentencia, hf, hnew]
  · rfl

/-- C6 witness: the empty-fullText sentencia is inserted as-is. -/
theorem C6_witness :
    saveSentenceToSupabase wOk [] sentEmpty
      = Except.ok ([] ++ [actualizar_hash_contenido (rowOfSentencia sentEmpty)])
    ∧ (actualizar_hash_contenido (rowOfSentencia sentEmpty)).texto_completo
        = sentEmpty.texto_completo :=
  C6_commit_accepts_empty_fulltext wOk [] sentEmpty rfl rfl

/-- C7: date normalization tries the ordered format list and the first
format that parses the whole string wins; 15/03/2024 and 2024-03-15
both normalize to the date 2024-03-15 (midnight UTC ISO string),
not-a-date matches no format so the original string is returned
unchanged, and the function is total — it never throws. -/
theorem C7_date_normalization :
    processFecha "15/03/2024" = "2024-03-15T00:00:00.000Z"
    ∧ processFecha "2024-03-15" = "2024-03-15T00:00:00.000Z"
    ∧ processFecha "not-a-date" = "not-a-date"
    ∧ (∀ s, tryFormats formatos s = none → processFecha s = s)
    ∧ (∀ s d, tryFormats formatos s = some d → processFecha s = toISOString d) := by
  refine ⟨by decide, by decide, by decide, ?_, ?_⟩
  · intro s h
    simp [processFecha, h]
  · intro s d h
    simp [processFecha, h]

/-- C7 witness: an unparseable date string is retained verbatim. -/
theorem C7_witness : processFecha "sin fecha" = "sin fecha" :=
  C7_date_normalization.2.2.2.1 "sin fecha" (by decide)

/-- C8 counterexample: a raw element with no rol but a fecha is not
rejected: it becomes a record with the synthetic key
ROL-(Date.now())-(index) and proceeds — no MissingKeyError is raised. -/
theorem C8_counterexample :
    extractResultsFromPage 1712345678901 [elemNoRol]
      = [{ rol := "ROL-1712345678901-0", fecha := "01/01/2024", tribunal := "",
           caratulado := "", enlace := "", idx := 0 }] := by decide

/-- C8 amended: an input element whose rol is falsy is never an error:
when fecha or tribunal is truthy it is normalized into a record whose
key is the synthetic ROL-(now)-(index); when rol, fecha and tribunal
are all falsy the element is silently skipped, producing no record. -/
theorem C8_missing_rol_gets_synthetic_key (now : Nat) (e : RawElement)
    (hrol : truthy e.rol = false) :
    ((truthy e.fecha || truthy e.tribunal) = true →
      extractResultsFromPage now [e]
        = [{ rol := "ROL-" ++ toString now ++ "-" ++ toString (0 : Nat),
             fecha := orDefault e.fecha "", tribunal := orDefault e.tribunal "",
             caratulado := orDefault e.caratulado "",
             enlace := orDefault e.enlace "", idx := 0 }])
    ∧ ((truthy e.fecha || truthy e.tribunal) = false →
        extractResultsFromPage now [e] = []) := by
  constructor
  · intro h
    have h2 : truthy e.fecha = true ∨ truthy e.tribunal = true := by
      cases hx : truthy e.fecha
      · cases hy : truthy e.tribunal
        · simp [hx, hy] at h
        · exact Or.inr rfl
      · exact Or.inl rfl

    rcases h2 with hf | ht
    · simp [extractResultsFromPage, List.enum, List.enumFrom, hrol, hf,
            orDefault_of_falsy]
    · simp [extractResultsFromPage, List.enum, List.enumFrom, hrol, ht,
            orDefault_of_falsy]
  · intro h
    have hf : truthy e.fecha = false := by
      cases hx : truthy e.fecha
      · rfl
      · simp [hx] at h
    have ht : truthy e.tribunal = false := by
      cases hx : truthy e.tribunal
      · rfl
      · simp [hx] at h
    simp [extractResultsFromPage, List.enum, List.enumFrom, hrol, hf, ht]

/-- C8 witness: an element with rol, fecha and tribunal all absent is
silently dropped. -/
theorem C8_witness : extractResultsFromPage 5 [elemBlank] = [] :=
  (C8_missing_rol_gets_synthetic_key 5 elemBlank rfl).2 rfl

/-- C9 counterexample: the provider succeeds on the content text Consid
taken alone, yet — because generateEmbeddings sends one combined text
for all views — the enriched record has no embedding at all: the
failure of the single combined call also loses the content view, so
views are not independent as claimed. -/
theorem C9_counterexample :
    wViews.embedResult "Consid" = some [7]
    ∧ generateEmbeddings wViews sentViews
        = (sentViews, [Event.embedCall "Titulo Consid Res"])
    ∧ (generateEmbeddings wViews sentViews).1.embeddings = none := by
  refine ⟨by decide, by decide, by decide⟩

/-- C9 amended: enrichment makes at most one provider call, on the
single trimmed concatenation of caratulado, considerandos and
resolucion; empty combined text skips the call entirely; a provider
failure is caught, leaving embeddings null; and an embedding failure
never aborts ingestion — the record is still committed whenever the
insert itself can succeed. -/
theorem C9_single_combined_embedding (w : World) (s : Sentencia) :
    (textoParaEmbedding s = "" → generateEmbeddings w s = (s, []))
    ∧ (∀ v, w.embedResult (textoParaEmbedding s) = some v →
         textoParaEmbedding s ≠ "" →
         generateEmbeddings w s
           = ({ s with embeddings := some v },
              [Event.embedCall (textoParaEmbedding s)]))
    ∧ (w.embedResult (textoParaEmbedding s) = none →
         textoParaEmbedding s ≠ "" →
         generateEmbeddings w s = (s, [Event.embedCall (textoParaEmbedding s)]))
    ∧ (generateEmbeddings w s).2.length ≤ 1
    ∧ (∀ cfg store stats r,
         cfg.hasSupabase = true →
         checkDuplicateByRol w store r.rol = false →
         w.insertFault r.rol = false →
         store.any (fun x => x.rol == r.rol) = false →
         (processSingleResult cfg w store stats r).1 = Except.ok ()) := by
  refine ⟨?_, ?_, ?_, ?_, ?_⟩
  · intro h
    simp [generateEmbeddings, h]
  · intro v hv hne
    simp [generateEmbeddings, hv, hne]
  · intro hnone hne
    simp [generateEmbeddings, hnone, hne]
  · simp only [generateEmbeddings]
    split
    · simp
    · split <;> simp
  · intro cfg store stats r hsup hchk hf hany
    have hrole : (embStage cfg w (extractSentenceDetails w r).1).1.rol = r.rol := by
      rw [embStage_rol, extractSentenceDetails_rol]
    have hsave : saveSentenceToSupabase w store
        (embStage cfg w (extractSentenceDetails w r).1).1
        = Except.ok (store ++ [actualizar_hash_contenido
            (rowOfSentencia (embStage cfg w (extractSentenceDetails w r).1).1)]) := by
      simp [saveSentenceToSupabase, supabaseInsert, rowOfSentencia, hrole, hf, hany]
    simp [processSingleResult, hsup, hchk, hsave]

/-- C9 witness: with every view text nonempty and the provider failing
on the combined text, ingestion of the record still succeeds. -/
theorem C9_witness :
    (processSingleResult cfgSE wViews [] stats0 resViews).1 = Except.ok () :=
  (C9_single_combined_embedding wViews sentViews).2.2.2.2 cfgSE [] stats0
    resViews rfl (by decide) rfl rfl

/-- Validation of the SHA-256 embedding against the standard abc test
vector, and of the empty-string digest. -/
theorem sha256_test_vector :
    sha256hexStr "abc"
      = "ba7816bf8f01cfea414140de5dae2223b00361a396177a9cb410ff61f20015ad"
    ∧ sha256hexStr ""
      = "e3b0c44298fc1c149afbf4c8996fb92427ae41e4649b934ca495991b7852b855" := by
  refine ⟨by decide, by decide⟩

end Juris
